import Mathlib

/-!
# Verification of the eventer-payments service against its specification

Shallow embedding of `src/server.js`, an Express HTTP service that proxies
payment operations to an external payment processor (Stripe).

The external processor is modelled as an explicit state (`Stripe`): customers,
promotion codes and subscriptions live there, and every processor call the
handlers perform is a pure function of that state which is also recorded in a
call trace (`Call`).  Handlers are pure functions from a request body and a
processor state to an HTTP response, the updated processor state and the trace
of processor calls made.  JavaScript runtime behaviour that the handlers rely
on is modelled explicitly: truthiness checks on request fields (`JVal.truthy`),
the `x || d` default (`jsOr`), and the `TypeError` thrown when dereferencing a
missing nested object, which the surrounding `try`/`catch` turns into an HTTP
500 response.
-/

namespace Eventer

/-- A JSON primitive value as it can arrive in a request body field.  Used to
model JavaScript truthiness checks (`if (!promoCode)`) faithfully: absent
fields are `Option.none`, present fields carry a `JVal`. -/
inductive JVal where
  | jnull
  | jbool (b : Bool)
  | jnum (n : Int)
  | jstr (s : String)
deriving Repr, DecidableEq

/-- JavaScript truthiness of a JSON primitive: `null`, `false`, `0` and `""`
are falsy, everything else is truthy. -/
def JVal.truthy : JVal → Bool
  | .jnull => false
  | .jbool b => b
  | .jnum n => n != 0
  | .jstr s => s != ""

/-- Truthiness of an optional JSON field: an absent field (`undefined`) is
falsy. -/
def fieldTruthy : Option JVal → Bool
  | none => false
  | some v => v.truthy

/-- Truthiness of an optional string field (used where the source only ever
receives strings): absent and `""` are falsy. -/
def truthyOS : Option String → Bool
  | none => false
  | some s => s != ""

/-- The JavaScript `x || d` default for an optional string field: absent or
falsy (empty) yields the default. -/
def jsOr (x : Option String) (d : String) : String :=
  match x with
  | none => d
  | some s => if s = "" then d else s

/-- Model of `s.toUpperCase()` on a string: uppercase each character. -/
def jsToUpperCase (s : String) : String := ⟨s.data.map Char.toUpper⟩

/-- Model of `v.toUpperCase()` in JavaScript: succeeds on strings, throws a
`TypeError` on any non-string (modelled as `Except.error`). -/
def JVal.toUpperCaseJS : JVal → Except String String
  | .jstr s => .ok (jsToUpperCase s)
  | _ => .error "promoCode.toUpperCase is not a function"

/-- The string the processor is queried with when a `JVal` is passed as an
identifier parameter (JavaScript string coercion). -/
def JVal.asKey : JVal → String
  | .jstr s => s
  | .jnum n => toString n
  | .jbool b => if b then "true" else "false"
  | .jnull => "null"

/-! ## Processor-side (external) objects -/

/-- A processor customer: processor-assigned id, email, and the caller-supplied
`eventer_user_id` metadata when one was attached at creation. -/
structure Customer where
  id : String
  email : String
  eventer_user_id : Option String
deriving Repr, DecidableEq

/-- The discount underlying a promotion code. -/
structure Coupon where
  percent_off : Option Nat
  amount_off : Option Nat
  duration : String
  duration_in_months : Option Nat
deriving Repr, DecidableEq

/-- A processor promotion code: id, the caller-facing code string, whether it
is active, and its coupon. -/
structure PromotionCode where
  id : String
  code : String
  active : Bool
  coupon : Coupon
deriving Repr, DecidableEq

/-- A processor payment intent, exposing the client-side secret. -/
structure PaymentIntentObj where
  id : String
  client_secret : String
  amount : Nat
  currency : String
deriving Repr, DecidableEq

/-- An invoice; for a fully discounted subscription it has no payment
intent. -/
structure Invoice where
  payment_intent : Option PaymentIntentObj
deriving Repr, DecidableEq

/-- A processor subscription. -/
structure Subscription where
  id : String
  customer : String
  status : String
  latest_invoice : Invoice
deriving Repr, DecidableEq

/-- The state of the external payment processor.  `cancelFails` is the set of
subscription ids whose cancellation call fails at the processor (modelling an
upstream error on that call); `fresh` is a counter from which processor-assigned
identifiers and secrets are minted. -/
structure Stripe where
  customers : List Customer
  promotionCodes : List PromotionCode
  subscriptions : List Subscription
  cancelFails : List String
  fresh : Nat
deriving Repr, DecidableEq

/-- The empty processor state. -/
def Stripe.empty : Stripe := ⟨[], [], [], [], 0⟩

/-! ## Processor API calls

Each call is a pure function of the processor state, per the processor's
documented semantics as the spec describes them.  Calls that create objects
mint fresh identifiers from the `fresh` counter. -/

/-- Trace entry: one processor API call made by a handler. -/
inductive Call where
  | customersList (email : String)
  | customersCreate (email : String)
  | ephemeralKeysCreate (customer : String)
  | paymentIntentsCreate (customer : String)
  | promotionCodesList (code : String)
  | subscriptionsCreate (customer : String)
  | subscriptionsList (customer : String)
  | subscriptionsCancel (id : String)
deriving Repr, DecidableEq

/-- Model of `stripe.customers.list({email, limit})`: the customers whose email matches,
first match first, truncated to `limit`. -/
def customersList (email : String) (limit : Nat) (st : Stripe) : List Customer :=
  (st.customers.filter (fun c => c.email == email)).take limit

/-- The next processor-assigned customer id. -/
def freshCustomerId (st : Stripe) : String := "cus_" ++ toString st.fresh

/-- Model of `stripe.customers.create({email, metadata?})`: appends a new customer with
a fresh id. -/
def customersCreate (email : String) (uid : Option String) (st : Stripe) :
    Customer × Stripe :=
  let c : Customer := ⟨freshCustomerId st, email, uid⟩
  (c, { st with customers := st.customers ++ [c], fresh := st.fresh + 1 })

/-- Model of `stripe.ephemeralKeys.create({customer}, {apiVersion})`: a fresh short-lived
secret scoped to the customer. -/
def ephemeralKeysCreate (_customer : String) (st : Stripe) : String × Stripe :=
  ("ek_" ++ toString st.fresh ++ "_secret", { st with fresh := st.fresh + 1 })

/-- Model of `stripe.paymentIntents.create({...})`: a fresh payment intent with a
non-empty processor-assigned client secret. -/
def paymentIntentsCreate (amount : Nat) (currency : String) (_customer : String)
    (st : Stripe) : PaymentIntentObj × Stripe :=
  (⟨"pi_" ++ toString st.fresh, "pi_" ++ toString st.fresh ++ "_secret",
    amount, currency⟩,
   { st with fresh := st.fresh + 1 })

/-- Model of `stripe.promotionCodes.list({code, active, limit})`: promotion codes whose
code string matches exactly, restricted to active ones when `activeOnly`,
truncated to `limit`. -/
def promotionCodesList (code : String) (activeOnly : Bool) (limit : Nat)
    (st : Stripe) : List PromotionCode :=
  (st.promotionCodes.filter
    (fun p => p.code == code && (!activeOnly || p.active))).take limit

/-- The options the `/create-subscription` handler assembles for
`stripe.subscriptions.create`. -/
structure SubscriptionOptions where
  customer : String
  priceId : String
  promotion_code : Option String
deriving Repr, DecidableEq

/-- Model of `stripe.subscriptions.create(options)` with
`expand: [latest_invoice.payment_intent]`.  Per the processor's semantics as
the spec records them, a subscription whose promotion code is 100%-off is fully
free and its latest invoice carries no payment intent; otherwise the invoice
carries a payment intent with a fresh non-empty client secret. -/
def subscriptionsCreate (opts : SubscriptionOptions) (st : Stripe) :
    Subscription × Stripe :=
  let fullyDiscounted : Bool :=
    match opts.promotion_code with
    | none => false
    | some pid =>
      match st.promotionCodes.find? (fun p => p.id == pid) with
      | some p => p.coupon.percent_off == some 100
      | none => false
  let pi : Option PaymentIntentObj :=
    if fullyDiscounted then none
    else some ⟨"pi_" ++ toString st.fresh, "pi_" ++ toString st.fresh ++ "_secret", 0, "usd"⟩
  let sub : Subscription :=
    ⟨"sub_" ++ toString (st.fresh + 1), opts.customer, "active", ⟨pi⟩⟩
  (sub, { st with subscriptions := st.subscriptions ++ [sub], fresh := st.fresh + 2 })

/-- Model of `stripe.subscriptions.list({customer, status, limit})`. -/
def subscriptionsList (customer : String) (status : String) (limit : Nat)
    (st : Stripe) : List Subscription :=
  (st.subscriptions.filter
    (fun s => s.customer == customer && s.status == status)).take limit

/-- Model of `stripe.subscriptions.cancel(id)`: fails when the processor rejects the
cancellation (`cancelFails`) or the id does not exist; otherwise marks every
record with that id canceled. -/
def subscriptionsCancel (id : String) (st : Stripe) :
    Except String (Subscription × Stripe) :=
  if st.cancelFails.contains id then
    .error "subscription cancel failed"
  else
    match st.subscriptions.find? (fun s => s.id == id) with
    | none => .error ("No such subscription: " ++ id)
    | some s =>
      let s' : Subscription := { s with status := "canceled" }
      .ok (s', { st with subscriptions :=
        st.subscriptions.map (fun t => if t.id == id then s' else t) })

/-! ## HTTP responses -/

/-- The JSON (or text) bodies the service sends. -/
inductive Body where
  /-- `{paymentIntent, ephemeralKey, customer, publishableKey}` -/
  | paymentIntentResp (paymentIntent ephemeralKey customer publishableKey : String)
  /-- `{subscriptionId, paymentIntent, ephemeralKey, customer}` -/
  | subscriptionResp (subscriptionId paymentIntent ephemeralKey customer : String)
  /-- `{error}` -/
  | errorBody (error : String)
  /-- `{valid: false}` -/
  | promoInvalid
  /-- `{valid: true, promoCodeId, percentOff, amountOff, duration, durationInMonths}` -/
  | promoValid (promoCodeId : String) (percentOff amountOff : Option Nat)
      (duration : String) (durationInMonths : Option Nat)
  /-- `{valid: false, error}` -/
  | promoError (error : String)
  /-- `{success: true, canceledSubscriptions}` -/
  | cancelResp (canceledSubscriptions : List String)
  /-- `{received: true}` -/
  | webhookAck
  /-- text body of a webhook signature failure -/
  | webhookErr (msg : String)
deriving Repr, DecidableEq

/-- An HTTP response: status code and body. -/
structure Response where
  status : Nat
  body : Body
deriving Repr, DecidableEq

/-- The configured publishable key (environment configuration). -/
def publishableKey : String := "pk_test_configured"

/-- The customer id field of a success body, when present. -/
def Body.customerField : Body → Option String
  | .paymentIntentResp _ _ c _ => some c
  | .subscriptionResp _ _ _ c => some c
  | _ => none

/-- The payment-intent client secret field of a success body, when present. -/
def Body.piSecretField : Body → Option String
  | .paymentIntentResp p _ _ _ => some p
  | .subscriptionResp _ p _ _ => some p
  | _ => none

/-! ## Request handlers

Each handler mirrors the corresponding route of `src/server.js`: same
processor calls in the same order, same branching, same response shapes.  The
result triple is the HTTP response sent, the processor state afterwards and
the trace of processor calls made. -/

/-- Body of `POST /create-payment-intent`. -/
structure PIReq where
  priceId : String
  amount : Nat
  currency : Option String
  customerId : Option String
  customerEmail : String
deriving Repr, DecidableEq

/-- The shared lookup-then-create customer resolution (spec §4.1): query the
processor for customers with this email (limit 1) and reuse the first match;
create a new customer, with the caller-supplied id as metadata, only when none
is found. -/
def resolveCustomer (email : String) (uid : Option String) (st : Stripe) :
    Customer × Stripe × List Call :=
  match customersList email 1 st with
  | c :: _ => (c, st, [.customersList email])
  | [] =>
    let (c, st1) := customersCreate email uid st
    (c, st1, [.customersList email, .customersCreate email])

/-- Customer resolution of `/create-payment-intent`: the lookup-then-create
path runs only when `customerId` is truthy; otherwise a new customer is
created unconditionally, with no lookup. -/
def resolveCustomerPI (req : PIReq) (st : Stripe) :
    Customer × Stripe × List Call :=
  if truthyOS req.customerId then
    resolveCustomer req.customerEmail req.customerId st
  else
    let (c, st1) := customersCreate req.customerEmail none st
    (c, st1, [.customersCreate req.customerEmail])

/-- The `POST /create-payment-intent` handler: resolve the customer, create an
ephemeral key, create the payment intent, and answer with the client secret,
ephemeral key secret, customer id and publishable key. -/
def createPaymentIntent (req : PIReq) (st : Stripe) :
    Response × Stripe × List Call :=
  let resolved := resolveCustomerPI req st
  let customer := resolved.1
  let (ekSecret, st2) := ephemeralKeysCreate customer.id resolved.2.1
  let (pi, st3) :=
    paymentIntentsCreate req.amount (jsOr req.currency "usd") customer.id st2
  (⟨200, .paymentIntentResp pi.client_secret ekSecret customer.id publishableKey⟩,
   st3,
   resolved.2.2 ++ [.ephemeralKeysCreate customer.id, .paymentIntentsCreate customer.id])

/-- Body of `POST /validate-promo`. -/
structure ValidatePromoReq where
  promoCode : Option JVal
deriving Repr, DecidableEq

/-- The `POST /validate-promo` handler.  A missing or falsy `promoCode` is a
400; an active exact match of the uppercased code yields the coupon terms; no
match yields `{valid: false}` with 200.  A truthy non-string `promoCode` makes
`.toUpperCase()` throw, which the catch-all turns into a 500. -/
def validatePromo (req : ValidatePromoReq) (st : Stripe) :
    Response × List Call :=
  if !fieldTruthy req.promoCode then
    (⟨400, .promoError "Promo code is required"⟩, [])
  else
    match (req.promoCode.getD .jnull).toUpperCaseJS with
    | .error e => (⟨500, .promoError e⟩, [])
    | .ok code =>
      match promotionCodesList code true 1 st with
      | [] => (⟨200, .promoInvalid⟩, [.promotionCodesList code])
      | p :: _ =>
        (⟨200, .promoValid p.id p.coupon.percent_off p.coupon.amount_off
            p.coupon.duration p.coupon.duration_in_months⟩,
         [.promotionCodesList code])

/-- The promo branch of `/create-subscription`: when a truthy `promoCode` was
supplied, query active promotion codes for the uppercased code and take the
first match's id; no match (or no truthy code) leaves the subscription options
without a promotion code. -/
def resolvePromo (promoCode : Option String) (st : Stripe) :
    Option String × List Call :=
  match promoCode with
  | some s =>
    if s == "" then (none, [])
    else
      match promotionCodesList (jsToUpperCase s) true 1 st with
      | p :: _ => (some p.id, [.promotionCodesList (jsToUpperCase s)])
      | [] => (none, [.promotionCodesList (jsToUpperCase s)])
  | none => (none, [])

/-- Body of `POST /create-subscription`. -/
structure SubReq where
  priceId : String
  customerEmail : String
  customerId : Option String
  promoCode : Option String
deriving Repr, DecidableEq

/-- The `POST /create-subscription` handler.  Always resolves the customer by
email lookup; optionally resolves an active promotion code from the uppercased
promo code; creates the subscription; then dereferences
`subscription.latest_invoice.payment_intent.client_secret` without a guard —
when the invoice has no payment intent this throws a `TypeError`, which the
catch-all converts into a 500 error response. -/
def createSubscription (req : SubReq) (st : Stripe) :
    Response × Stripe × List Call :=
  let resolved := resolveCustomer req.customerEmail req.customerId st
  let customer := resolved.1
  let (ekSecret, st2) := ephemeralKeysCreate customer.id resolved.2.1
  let promoResolved := resolvePromo req.promoCode st2
  let opts : SubscriptionOptions := ⟨customer.id, req.priceId, promoResolved.1⟩
  let (sub, st3) := subscriptionsCreate opts st2
  let trace := resolved.2.2 ++ [.ephemeralKeysCreate customer.id]
      ++ promoResolved.2 ++ [.subscriptionsCreate customer.id]
  match sub.latest_invoice.payment_intent with
  | some pi =>
    (⟨200, .subscriptionResp sub.id pi.client_secret ekSecret customer.id⟩,
     st3, trace)
  | none =>
    (⟨500, .errorBody "Cannot read properties of null (reading client_secret)"⟩,
     st3, trace)

/-- Body of `POST /cancel-subscription`. -/
structure CancelReq where
  customerId : Option JVal
deriving Repr, DecidableEq

/-- The sequential cancellation loop of `/cancel-subscription`: cancel each
listed subscription in order, collecting canceled ids; the first processor
failure aborts the loop (already-performed cancellations persist in the
state). -/
def cancelAll (subs : List Subscription) (st : Stripe) :
    Except String (List String) × Stripe × List Call :=
  match subs with
  | [] => (.ok [], st, [])
  | s :: rest =>
    match subscriptionsCancel s.id st with
    | .error e => (.error e, st, [.subscriptionsCancel s.id])
    | .ok (c, st1) =>
      match cancelAll rest st1 with
      | (.error e, st2, tr) => (.error e, st2, .subscriptionsCancel s.id :: tr)
      | (.ok ids, st2, tr) => (.ok (c.id :: ids), st2, .subscriptionsCancel s.id :: tr)

/-- The `POST /cancel-subscription` handler.  Missing or falsy `customerId` is
a 400; no active subscriptions (limit 10) is a 404; otherwise each listed
subscription is canceled sequentially, a failure becoming a 500. -/
def cancelSubscription (req : CancelReq) (st : Stripe) :
    Response × Stripe × List Call :=
  if !fieldTruthy req.customerId then
    (⟨400, .errorBody "Customer ID is required"⟩, st, [])
  else
    let cid := (req.customerId.getD .jnull).asKey
    let subs := subscriptionsList cid "active" 10 st
    if subs.length = 0 then
      (⟨404, .errorBody "No active subscription found"⟩, st, [.subscriptionsList cid])
    else
      match cancelAll subs st with
      | (.ok ids, st1, tr) =>
        (⟨200, .cancelResp ids⟩, st1, .subscriptionsList cid :: tr)
      | (.error e, st1, tr) =>
        (⟨500, .errorBody e⟩, st1, .subscriptionsList cid :: tr)

/-! ## Webhook handler -/

/-- A processor webhook event as `constructEvent` returns it: declared type
and the fields of `event.data.object` the dispatch branches read. -/
structure Event where
  type : String
  objId : String
  objStatus : String
deriving Repr, DecidableEq

/-- A signature verifier: from raw body bytes, signature header and shared
secret to either the parsed event or a failure reason.  The source delegates
this wholly to `stripe.webhooks.constructEvent`, so the webhook handler is
parameterised over it. -/
def Verifier : Type := String → String → String → Except String Event

/-- The result of one webhook delivery: every response sent (in order) and the
log lines written by the dispatch branches. -/
structure WebhookResult where
  sends : List Response
  dispatchLog : List String
deriving Repr, DecidableEq

/-- The event-type dispatch of the webhook handler: a log-only branch per
recognized type, plus the unrecognized-type fallback. -/
def webhookDispatch (ev : Event) : List String :=
  if ev.type == "payment_intent.succeeded" then
    ["Payment succeeded: " ++ ev.objId]
  else if ev.type == "customer.subscription.created"
      || ev.type == "customer.subscription.updated" then
    ["Subscription updated: " ++ ev.objId ++ " " ++ ev.objStatus]
  else if ev.type == "customer.subscription.deleted" then
    ["Subscription canceled: " ++ ev.objId]
  else
    ["Unhandled event type: " ++ ev.type]

/-- The `POST /webhook` handler: verify the raw bytes against the signature
and shared secret; on failure send a single 400 with the reason and do not
dispatch; on success run the dispatch branch for the event type and send the
fixed acknowledgment exactly once. -/
def webhook (verify : Verifier) (rawBody sig secret : String) : WebhookResult :=
  match verify rawBody sig secret with
  | .error msg => ⟨[⟨400, .webhookErr ("Webhook Error: " ++ msg)⟩], []⟩
  | .ok ev => ⟨[⟨200, .webhookAck⟩], webhookDispatch ev⟩

/-- Toy model of the external SDK signature scheme, used to instantiate the
verifier in concrete examples: the expected signature is a tag over the shared
secret and the exact body bytes, and verification succeeds only on an exact
signature match. -/
def demoSig (secret body : String) : String := "t=0,v1=" ++ secret ++ "." ++ body

/-- Toy verifier over `demoSig`; on success it parses the body into an event
(the body is taken to carry the event type directly). -/
def demoVerify : Verifier := fun body sig secret =>
  if sig == demoSig secret body then .ok ⟨body, "evt_obj_1", "active"⟩
  else .error "No signatures found matching the expected signature for payload"

/-! ## Helper lemmas -/

/-- A string whose left append component is non-empty is non-empty. -/
theorem append_ne_empty_of_left (s t : String) (h : s.length ≠ 0) :
    s ++ t ≠ "" := by
  intro he
  have hl := congrArg String.length he
  rw [String.length_append] at hl
  have : String.length "" = 0 := rfl
  omega

/-- The minted payment-intent client secrets are never empty. -/
theorem pi_secret_ne_empty (n : Nat) : "pi_" ++ toString n ++ "_secret" ≠ "" := by
  apply append_ne_empty_of_left
  rw [String.length_append]
  have : String.length "pi_" = 3 := rfl
  omega

/-- The promo branch of `/create-subscription` depends on the promo code only
through its uppercasing. -/
theorem resolvePromo_congr (s t : String) (hs : s ≠ "") (ht : t ≠ "")
    (h : jsToUpperCase s = jsToUpperCase t) (st : Stripe) :
    resolvePromo (some s) st = resolvePromo (some t) st := by
  simp only [resolvePromo]
  have hs' : (s == "") = false := by simp [hs]
  have ht' : (t == "") = false := by simp [ht]
  rw [hs', ht', h]

/-! ## Claims -/

/-- C10: missing-field checks use JavaScript falsiness, so a `promoCode` or
`customerId` supplied as the empty string or any other falsy JSON value is
treated exactly like an absent field: `/validate-promo` and
`/cancel-subscription` answer 400 without any processor call being made. -/
theorem c10_falsy_fields_like_absent (st : Stripe) (v : JVal)
    (h : v.truthy = false) :
    validatePromo ⟨some v⟩ st = validatePromo ⟨none⟩ st ∧
    validatePromo ⟨some v⟩ st = (⟨400, .promoError "Promo code is required"⟩, []) ∧
    cancelSubscription ⟨some v⟩ st = cancelSubscription ⟨none⟩ st ∧
    cancelSubscription ⟨some v⟩ st
      = (⟨400, .errorBody "Customer ID is required"⟩, st, []) := by
  have hv : validatePromo ⟨some v⟩ st
      = (⟨400, .promoError "Promo code is required"⟩, []) := by
    simp [validatePromo, fieldTruthy, h]
  have hc : cancelSubscription ⟨some v⟩ st
      = (⟨400, .errorBody "Customer ID is required"⟩, st, []) := by
    simp [cancelSubscription, fieldTruthy, h]
  refine ⟨?_, hv, ?_, hc⟩
  · rw [hv]; simp [validatePromo, fieldTruthy]
  · rw [hc]; simp [cancelSubscription, fieldTruthy]

/-- Witness for C10 at the empty string. -/
theorem c10_falsy_fields_like_absent_witness :
    JVal.truthy (.jstr "") = false ∧
    validatePromo ⟨some (.jstr "")⟩ Stripe.empty
      = (⟨400, .promoError "Promo code is required"⟩, []) ∧
    cancelSubscription ⟨some (.jstr "")⟩ Stripe.empty
      = (⟨400, .errorBody "Customer ID is required"⟩, Stripe.empty, []) :=
  ⟨by decide,
   (c10_falsy_fields_like_absent Stripe.empty (.jstr "") (by decide)).2.1,
   (c10_falsy_fields_like_absent Stripe.empty (.jstr "") (by decide)).2.2.2⟩

/-- C5: `/validate-promo` answers 400 (never 200) when `promoCode` is missing,
and 200 with `{valid: false}` when a promo code string is present but no
active promotion code matches its uppercased value — two distinct outcomes. -/
theorem c5_validate_promo_missing_vs_no_match (st : Stripe) :
    (validatePromo ⟨none⟩ st = (⟨400, .promoError "Promo code is required"⟩, []) ∧
      (validatePromo ⟨none⟩ st).1.status ≠ 200) ∧
    (∀ s : String, s ≠ "" →
      (∀ p ∈ st.promotionCodes, p.active = true → p.code ≠ jsToUpperCase s) →
      validatePromo ⟨some (.jstr s)⟩ st
        = (⟨200, .promoInvalid⟩, [.promotionCodesList (jsToUpperCase s)])) := by
  refine ⟨⟨by simp [validatePromo, fieldTruthy], by simp [validatePromo, fieldTruthy]⟩, ?_⟩
  intro s hs hnone
  have hfil : st.promotionCodes.filter
      (fun p => p.code == jsToUpperCase s && p.active) = [] := by
    rw [List.filter_eq_nil_iff]
    intro p hp
    simp only [Bool.and_eq_true, beq_iff_eq, not_and]
    intro hcode hact
    exact hnone p hp hact hcode
  simp [validatePromo, fieldTruthy, JVal.truthy, hs, JVal.toUpperCaseJS,
    promotionCodesList, hfil]

/-- Witness for C5 on a state with one (inactive) promotion code. -/
theorem c5_validate_promo_missing_vs_no_match_witness :
    validatePromo ⟨some (.jstr "save10")⟩
        { Stripe.empty with promotionCodes :=
            [⟨"promo_1", "SAVE10", false, ⟨some 10, none, "once", none⟩⟩] }
      = (⟨200, .promoInvalid⟩, [.promotionCodesList (jsToUpperCase "save10")]) :=
  (c5_validate_promo_missing_vs_no_match
      { Stripe.empty with promotionCodes :=
          [⟨"promo_1", "SAVE10", false, ⟨some 10, none, "once", none⟩⟩] }).2
    "save10" (by decide) (by decide)

/-- C3: when webhook signature verification fails, the response is a single
HTTP 400 carrying the failure reason, no dispatch branch runs, and the
`{received: true}` acknowledgment is never sent. -/
theorem c3_webhook_failure_rejected (verify : Verifier)
    (rawBody sig secret msg : String)
    (h : verify rawBody sig secret = .error msg) :
    webhook verify rawBody sig secret
      = ⟨[⟨400, .webhookErr ("Webhook Error: " ++ msg)⟩], []⟩ ∧
    (⟨200, .webhookAck⟩ : Response) ∉ (webhook verify rawBody sig secret).sends := by
  refine ⟨by simp [webhook, h], ?_⟩
  simp [webhook, h]

/-- Witness for C3: a tampered payload under the demo signature scheme. -/
theorem c3_webhook_failure_rejected_witness :
    demoVerify "tampered-payload" (demoSig "whsec_demo" "payload") "whsec_demo"
      = .error "No signatures found matching the expected signature for payload" ∧
    webhook demoVerify "tampered-payload" (demoSig "whsec_demo" "payload") "whsec_demo"
      = ⟨[⟨400, .webhookErr ("Webhook Error: "
            ++ "No signatures found matching the expected signature for payload")⟩], []⟩ :=
  ⟨by rfl,
   (c3_webhook_failure_rejected demoVerify "tampered-payload"
      (demoSig "whsec_demo" "payload") "whsec_demo"
      "No signatures found matching the expected signature for payload"
      (by rfl)).1⟩

/-- C4: when webhook verification succeeds, whatever dispatch branch the event
type selects, the handler sends exactly one response — the fixed
`{received: true}` acknowledgment — and the acknowledgment can only ever be
sent after a successful verification. -/
theorem c4_webhook_ack_exactly_once (verify : Verifier) (rawBody sig secret : String)
    (ev : Event) (h : verify rawBody sig secret = .ok ev) :
    (webhook verify rawBody sig secret).sends = [⟨200, .webhookAck⟩] ∧
    (webhook verify rawBody sig secret).dispatchLog = webhookDispatch ev ∧
    (∀ (v2 : Verifier) (b2 s2 c2 : String),
      (⟨200, .webhookAck⟩ : Response) ∈ (webhook v2 b2 s2 c2).sends →
      ∃ e2, v2 b2 s2 c2 = .ok e2) := by
  refine ⟨by simp [webhook, h], by simp [webhook, h], ?_⟩
  intro v2 b2 s2 c2 hmem
  cases hv : v2 b2 s2 c2 with
  | error m => simp [webhook, hv] at hmem
  | ok e => exact ⟨e, rfl⟩

/-- Witness for C4: a validly signed payload under the demo scheme. -/
theorem c4_webhook_ack_exactly_once_witness :
    demoVerify "payment_intent.succeeded"
        (demoSig "whsec_demo" "payment_intent.succeeded") "whsec_demo"
      = .ok ⟨"payment_intent.succeeded", "evt_obj_1", "active"⟩ ∧
    (webhook demoVerify "payment_intent.succeeded"
        (demoSig "whsec_demo" "payment_intent.succeeded") "whsec_demo").sends
      = [⟨200, .webhookAck⟩] :=
  ⟨by rfl,
   (c4_webhook_ack_exactly_once demoVerify "payment_intent.succeeded"
      (demoSig "whsec_demo" "payment_intent.succeeded") "whsec_demo"
      ⟨"payment_intent.succeeded", "evt_obj_1", "active"⟩ (by rfl)).1⟩

/-- The processor state of the C1 failing input: one active 100%-off
promotion code. -/
def freePromoState : Stripe :=
  { Stripe.empty with promotionCodes :=
      [⟨"promo_free", "FREE100", true, ⟨some 100, none, "forever", none⟩⟩] }

/-- The C1 failing request: a subscription created with the 100%-off code. -/
def freePromoReq : SubReq :=
  ⟨"price_pro", "user@example.com", some "user_1", some "FREE100"⟩

/-- C1 (code bug): with a 100%-off promo code the processor returns a
subscription whose latest invoice has no payment intent; the handler
dereferences it unguarded, the `TypeError` lands in the catch-all, and the
response is a 500 error — not the success response with a null/absent
`paymentIntent` field the spec requires. -/
theorem c1_free_subscription_deref_bug :
    (createSubscription freePromoReq freePromoState).1
      = ⟨500, .errorBody "Cannot read properties of null (reading client_secret)"⟩ ∧
    (createSubscription freePromoReq freePromoState).1.status ≠ 200 ∧
    (createSubscription freePromoReq freePromoState).1.body.piSecretField = none := by
  decide

/-- C8: promo code lookup is case-insensitive — both `/validate-promo` and the
promo branch of `/create-subscription` query the processor with the uppercased
code, so two codes with the same uppercasing yield identical results. -/
theorem c8_promo_lookup_case_insensitive (st : Stripe) (s t : String)
    (hs : s ≠ "") (ht : t ≠ "") (h : jsToUpperCase s = jsToUpperCase t) :
    validatePromo ⟨some (.jstr s)⟩ st = validatePromo ⟨some (.jstr t)⟩ st ∧
    (∀ (priceId email : String) (cid : Option String),
      createSubscription ⟨priceId, email, cid, some s⟩ st
        = createSubscription ⟨priceId, email, cid, some t⟩ st) := by
  constructor
  · simp [validatePromo, fieldTruthy, JVal.truthy, hs, ht, JVal.toUpperCaseJS, h]
  · intro priceId email cid
    simp only [createSubscription, resolvePromo_congr s t hs ht h]

/-- The response of `/create-payment-intent` always carries the resolved
customer's id. -/
theorem createPaymentIntent_customerField (req : PIReq) (st : Stripe) :
    (createPaymentIntent req st).1.body.customerField
      = some (resolveCustomerPI req st).1.id := rfl

/-- The response of `/create-payment-intent` always carries the freshly minted
payment-intent client secret. -/
theorem createPaymentIntent_piSecret (req : PIReq) (st : Stripe) :
    (createPaymentIntent req st).1.body.piSecretField
      = some ("pi_" ++ toString ((resolveCustomerPI req st).2.1.fresh + 1)
          ++ "_secret") := rfl

/-- The ephemeral-key and payment-intent calls do not change the customer
list: after `/create-payment-intent` it is whatever customer resolution left
behind. -/
theorem createPaymentIntent_customers (req : PIReq) (st : Stripe) :
    (createPaymentIntent req st).2.1.customers
      = (resolveCustomerPI req st).2.1.customers := rfl

/-- The trace of `/create-payment-intent` is the resolution trace followed by
the ephemeral-key and payment-intent calls. -/
theorem createPaymentIntent_trace (req : PIReq) (st : Stripe) :
    (createPaymentIntent req st).2.2
      = (resolveCustomerPI req st).2.2
        ++ [.ephemeralKeysCreate (resolveCustomerPI req st).1.id,
            .paymentIntentsCreate (resolveCustomerPI req st).1.id] := rfl

/-- After customer resolution, the resolved customer heads the email-filtered
customer list of the resulting state. -/
theorem resolveCustomer_post (email : String) (uid : Option String) (st : Stripe) :
    ∃ tl, (resolveCustomer email uid st).2.1.customers.filter
        (fun x => x.email == email)
      = (resolveCustomer email uid st).1 :: tl := by
  cases hF : st.customers.filter (fun x => x.email == email) with
  | nil =>
    have hcl : customersList email 1 st = [] := by
      simp [customersList, hF]
    refine ⟨[], ?_⟩
    simp [resolveCustomer, hcl, customersCreate, hF]
  | cons x xs =>
    have hcl : customersList email 1 st = [x] := by
      simp [customersList, hF]
    refine ⟨xs, ?_⟩
    simp [resolveCustomer, hcl, hF]

/-- Customer resolution returns the head of the email-filtered customer list
whenever that list is non-empty, whatever the caller-supplied id. -/
theorem resolveCustomer_stable (email : String) (uid : Option String)
    (st : Stripe) (c : Customer) (tl : List Customer)
    (h : st.customers.filter (fun x => x.email == email) = c :: tl) :
    (resolveCustomer email uid st).1 = c := by
  have hcl : customersList email 1 st = [c] := by
    simp [customersList, h]
  simp [resolveCustomer, hcl]

/-- C2 counterexample request: valid email, amount and currency, but the
optional `customerId` absent. -/
def c2CexReq : PIReq := ⟨"price_1", 1000, some "usd", none, "user@example.com"⟩

/-- C2 counterexample: two identical `/create-payment-intent` requests with
the same valid (email, amount, currency) but no `customerId` return different
customer ids — the claim fails for requests without `customerId`. -/
theorem c2_counterexample_customer_id_not_stable :
    (createPaymentIntent c2CexReq Stripe.empty).1.body.customerField
      = some "cus_0" ∧
    (createPaymentIntent c2CexReq
        (createPaymentIntent c2CexReq Stripe.empty).2.1).1.body.customerField
      = some "cus_3" ∧
    (createPaymentIntent c2CexReq Stripe.empty).1.body.customerField
      ≠ (createPaymentIntent c2CexReq
          (createPaymentIntent c2CexReq Stripe.empty).2.1).1.body.customerField := by
  decide

/-- C2 (amended): for every valid (email, amount, currency), when the optional
`customerId` field is supplied (truthy), two consecutive
`/create-payment-intent` calls return the same customer id; and in every
successful response — whatever the request — the payment-intent client secret
is non-empty. -/
theorem c2_amended_customer_stable_secret_nonempty (st : Stripe)
    (priceId email : String) (amount : Nat) (currency : Option String)
    (cid : String) (hcid : cid ≠ "") :
    (createPaymentIntent ⟨priceId, amount, currency, some cid, email⟩ st).1.body.customerField
      = (createPaymentIntent ⟨priceId, amount, currency, some cid, email⟩
          ((createPaymentIntent ⟨priceId, amount, currency, some cid, email⟩ st).2.1)
         ).1.body.customerField ∧
    (∀ (req : PIReq) (st0 : Stripe) (s : String),
      (createPaymentIntent req st0).1.body.piSecretField = some s → s ≠ "") := by
  constructor
  · have ht : truthyOS (some cid) = true := by simp [truthyOS, hcid]
    have h1 : resolveCustomerPI ⟨priceId, amount, currency, some cid, email⟩ st
        = resolveCustomer email (some cid) st := by
      simp [resolveCustomerPI, ht]
    obtain ⟨tl, hpost⟩ := resolveCustomer_post email (some cid) st
    have hst3 : (createPaymentIntent ⟨priceId, amount, currency, some cid, email⟩ st).2.1.customers
        = (resolveCustomer email (some cid) st).2.1.customers := by
      rw [createPaymentIntent_customers, h1]
    have h2 : resolveCustomerPI ⟨priceId, amount, currency, some cid, email⟩
        ((createPaymentIntent ⟨priceId, amount, currency, some cid, email⟩ st).2.1)
        = resolveCustomer email (some cid)
            ((createPaymentIntent ⟨priceId, amount, currency, some cid, email⟩ st).2.1) := by
      simp [resolveCustomerPI, ht]
    have hstable : (resolveCustomer email (some cid)
          ((createPaymentIntent ⟨priceId, amount, currency, some cid, email⟩ st).2.1)).1
        = (resolveCustomer email (some cid) st).1 := by
      apply resolveCustomer_stable email (some cid) _ _ tl
      rw [hst3]
      exact hpost
    rw [createPaymentIntent_customerField, createPaymentIntent_customerField,
      h1, h2, hstable]
  · intro req st0 s hsome
    rw [createPaymentIntent_piSecret] at hsome
    have hs : s = "pi_" ++ toString ((resolveCustomerPI req st0).2.1.fresh + 1)
        ++ "_secret" := (Option.some.injEq _ _).mp hsome.symm
    rw [hs]
    exact pi_secret_ne_empty _

/-- Witness for the amended C2 at a concrete request and the empty state. -/
theorem c2_amended_customer_stable_secret_nonempty_witness :
    (createPaymentIntent ⟨"price_1", 1000, some "usd", some "user_7", "a@b.co"⟩
        Stripe.empty).1.body.customerField
      = (createPaymentIntent ⟨"price_1", 1000, some "usd", some "user_7", "a@b.co"⟩
          ((createPaymentIntent ⟨"price_1", 1000, some "usd", some "user_7", "a@b.co"⟩
              Stripe.empty).2.1)).1.body.customerField :=
  (c2_amended_customer_stable_secret_nonempty Stripe.empty "price_1" "a@b.co"
    1000 (some "usd") "user_7" (by decide)).1

/-- C9: with `customerId` absent (or falsy), `/create-payment-intent` performs
no email lookup at all and unconditionally creates a brand-new customer, so a
repeated call with the same email appends a second, duplicate customer. -/
theorem c9_no_lookup_without_customer_id (st : Stripe)
    (priceId email : String) (amount : Nat) (currency : Option String)
    (cidOpt : Option String) (h : truthyOS cidOpt = false) :
    (∀ e : String, Call.customersList e
        ∉ (createPaymentIntent ⟨priceId, amount, currency, cidOpt, email⟩ st).2.2) ∧
    (createPaymentIntent ⟨priceId, amount, currency, cidOpt, email⟩ st).2.1.customers
      = st.customers ++ [⟨freshCustomerId st, email, none⟩] ∧
    (createPaymentIntent ⟨priceId, amount, currency, cidOpt, email⟩ st).1.body.customerField
      = some (freshCustomerId st) ∧
    (createPaymentIntent ⟨priceId, amount, currency, cidOpt, email⟩
        ((createPaymentIntent ⟨priceId, amount, currency, cidOpt, email⟩ st).2.1)
       ).2.1.customers
      = st.customers
        ++ [⟨freshCustomerId st, email, none⟩,
            ⟨freshCustomerId ((createPaymentIntent
                ⟨priceId, amount, currency, cidOpt, email⟩ st).2.1), email, none⟩] := by
  have hres : ∀ st0 : Stripe,
      resolveCustomerPI ⟨priceId, amount, currency, cidOpt, email⟩ st0
        = ((⟨freshCustomerId st0, email, none⟩ : Customer),
           ({ st0 with
              customers := st0.customers ++ [⟨freshCustomerId st0, email, none⟩],
              fresh := st0.fresh + 1 } : Stripe),
           ([.customersCreate email] : List Call)) := by
    intro st0
    simp [resolveCustomerPI, h, customersCreate]
  refine ⟨?_, ?_, ?_, ?_⟩
  · intro e
    rw [createPaymentIntent_trace, hres]
    simp
  · rw [createPaymentIntent_customers, hres]
  · rw [createPaymentIntent_customerField, hres]
  · rw [createPaymentIntent_customers, hres, createPaymentIntent_customers, hres]
    simp

/-- Witness for C9 at a concrete request with `customerId` absent. -/
theorem c9_no_lookup_without_customer_id_witness :
    (createPaymentIntent ⟨"price_1", 1000, some "usd", none, "a@b.co"⟩
        Stripe.empty).2.1.customers
      = Stripe.empty.customers ++ [⟨freshCustomerId Stripe.empty, "a@b.co", none⟩] :=
  (c9_no_lookup_without_customer_id Stripe.empty "price_1" "a@b.co" 1000
    (some "usd") none (by decide)).2.1

/-- Some subscription with this id exists at the processor. -/
def hasSubId (st : Stripe) (j : String) : Prop :=
  ∃ t ∈ st.subscriptions, t.id = j

/-- Every subscription record with this id is canceled. -/
def allCanceled (st : Stripe) (j : String) : Prop :=
  ∀ t ∈ st.subscriptions, t.id = j → t.status = "canceled"

/-- The active subscriptions a customer owns. -/
def activeOf (cid : String) (st : Stripe) : List Subscription :=
  st.subscriptions.filter (fun s => s.customer == cid && s.status == "active")

/-- The active-subscription listing is the customer's active subscriptions,
truncated to the page size. -/
theorem subscriptionsList_active (cid : String) (limit : Nat) (st : Stripe) :
    subscriptionsList cid "active" limit st = (activeOf cid st).take limit := rfl

/-- What a successful processor cancellation does: it returns the canceled
subscription, keeps the failure set, preserves which ids exist, never
un-cancels anything, and leaves every record with the canceled id
canceled. -/
theorem subscriptionsCancel_ok (i : String) (st : Stripe)
    (hf : st.cancelFails.contains i = false) (he : hasSubId st i) :
    ∃ c st', subscriptionsCancel i st = .ok (c, st') ∧ c.id = i ∧
      st'.cancelFails = st.cancelFails ∧
      (∀ j, hasSubId st' j ↔ hasSubId st j) ∧
      (∀ j, allCanceled st j → allCanceled st' j) ∧
      allCanceled st' i := by
  obtain ⟨t0, ht0mem, ht0id⟩ := he
  have hsome : (st.subscriptions.find? (fun s => s.id == i)).isSome := by
    rw [List.find?_isSome]
    exact ⟨t0, ht0mem, by simp [ht0id]⟩
  obtain ⟨s, hs⟩ := Option.isSome_iff_exists.mp hsome
  have hsid : s.id = i := by
    have := List.find?_some hs
    simpa using this
  have hf' : i ∉ st.cancelFails := by simpa using hf
  refine ⟨{ s with status := "canceled" },
    { st with subscriptions := st.subscriptions.map (fun t => if t.id == i then { s with status := "canceled" } else t) },
    by simp [subscriptionsCancel, hf', hs], hsid, rfl, ?_, ?_, ?_⟩
  · intro j
    simp only [hasSubId, List.mem_map]
    constructor
    · rintro ⟨t, ⟨u, hu, rfl⟩, hid⟩
      by_cases hui : (u.id == i) = true
      · rw [if_pos hui] at hid
        have hid' : s.id = j := hid
        refine ⟨u, hu, ?_⟩
        rw [beq_iff_eq] at hui
        rw [hui, ← hsid]
        exact hid'
      · rw [if_neg (by simpa using hui)] at hid
        exact ⟨u, hu, hid⟩
    · rintro ⟨t, ht, hid⟩
      by_cases hti : (t.id == i) = true
      · refine ⟨_, ⟨t, ht, rfl⟩, ?_⟩
        rw [if_pos hti]
        show s.id = j
        rw [beq_iff_eq] at hti
        rw [hsid, ← hti]
        exact hid
      · refine ⟨_, ⟨t, ht, rfl⟩, ?_⟩
        rw [if_neg (by simpa using hti)]
        exact hid
  · intro j hj t htmem htid
    rw [List.mem_map] at htmem
    obtain ⟨u, hu, rfl⟩ := htmem
    by_cases hui : (u.id == i) = true
    · rw [if_pos hui]
    · rw [if_neg (by simpa using hui)] at htid ⊢
      exact hj u hu htid
  · intro t htmem htid
    rw [List.mem_map] at htmem
    obtain ⟨u, hu, rfl⟩ := htmem
    by_cases hui : (u.id == i) = true
    · rw [if_pos hui]
    · rw [if_neg (by simpa using hui)] at htid ⊢
      rw [htid] at hui
      simp at hui

/-- When every listed cancellation succeeds, the loop cancels them all in
order: it returns their ids, attempts exactly one processor cancel per listed
subscription, and leaves every listed id canceled. -/
theorem cancelAll_ok (subs : List Subscription) (st : Stripe)
    (h : ∀ s ∈ subs, st.cancelFails.contains s.id = false ∧ hasSubId st s.id) :
    ∃ st', cancelAll subs st
        = (.ok (subs.map fun s => s.id), st',
           subs.map fun s => Call.subscriptionsCancel s.id) ∧
      st'.cancelFails = st.cancelFails ∧
      (∀ j, hasSubId st' j ↔ hasSubId st j) ∧
      (∀ j, allCanceled st j → allCanceled st' j) ∧
      (∀ s ∈ subs, allCanceled st' s.id) := by
  induction subs generalizing st with
  | nil => exact ⟨st, rfl, rfl, fun j => Iff.rfl, fun j hj => hj, by simp⟩
  | cons s rest ih =>
    obtain ⟨hfs, hes⟩ := h s (List.mem_cons_self s rest)
    obtain ⟨c, st1, heq, hcid, hfails, hhas, hmono, hcanc⟩ :=
      subscriptionsCancel_ok s.id st hfs hes
    have h1 : ∀ x ∈ rest, st1.cancelFails.contains x.id = false ∧ hasSubId st1 x.id := by
      intro x hx
      obtain ⟨hf', he'⟩ := h x (List.mem_cons_of_mem s hx)
      exact ⟨by rw [hfails]; exact hf', (hhas x.id).mpr he'⟩
    obtain ⟨st2, heq2, hfails2, hhas2, hmono2, hcanc2⟩ := ih st1 h1
    refine ⟨st2, ?_, by rw [hfails2, hfails], fun j => (hhas2 j).trans (hhas j),
      fun j hj => hmono2 j (hmono j hj), ?_⟩
    · simp only [cancelAll, heq, heq2, List.map_cons, hcid]
    · intro x hx
      rcases List.mem_cons.mp hx with rfl | hx'
      · exact hmono2 _ hcanc
      · exact hcanc2 x hx'

/-- When the processor fails the cancellation of the `k`-th listed
subscription (`k = pre.length + 1`), the loop stops there: the error
propagates, only the first `k` cancels were attempted, and the first `k-1`
subscriptions remain canceled in the final state. -/
theorem cancelAll_fail (pre : List Subscription) (sk : Subscription)
    (post : List Subscription) (st : Stripe)
    (hpre : ∀ s ∈ pre, st.cancelFails.contains s.id = false ∧ hasSubId st s.id)
    (hk : st.cancelFails.contains sk.id = true) :
    ∃ st', cancelAll (pre ++ sk :: post) st
        = (.error "subscription cancel failed", st',
           (pre.map fun s => Call.subscriptionsCancel s.id)
             ++ [.subscriptionsCancel sk.id]) ∧
      st'.cancelFails = st.cancelFails ∧
      (∀ j, allCanceled st j → allCanceled st' j) ∧
      (∀ s ∈ pre, allCanceled st' s.id) := by
  induction pre generalizing st with
  | nil =>
    have hk' : sk.id ∈ st.cancelFails := by simpa using hk
    refine ⟨st, ?_, rfl, fun j hj => hj, by simp⟩
    simp [cancelAll, subscriptionsCancel, hk']
  | cons s pre' ih =>
    obtain ⟨hfs, hes⟩ := hpre s (List.mem_cons_self s pre')
    obtain ⟨c, st1, heq, hcid, hfails, hhas, hmono, hcanc⟩ :=
      subscriptionsCancel_ok s.id st hfs hes
    have h1 : ∀ x ∈ pre', st1.cancelFails.contains x.id = false ∧ hasSubId st1 x.id := by
      intro x hx
      obtain ⟨hf', he'⟩ := hpre x (List.mem_cons_of_mem s hx)
      exact ⟨by rw [hfails]; exact hf', (hhas x.id).mpr he'⟩
    have hk1 : st1.cancelFails.contains sk.id = true := by rw [hfails]; exact hk
    obtain ⟨st2, heq2, hfails2, hmono2, hcanc2⟩ := ih st1 h1 hk1
    refine ⟨st2, ?_, by rw [hfails2, hfails], fun j hj => hmono2 j (hmono j hj), ?_⟩
    · simp only [List.cons_append, cancelAll, List.append_eq, heq, heq2, List.map_cons]
    · intro x hx
      rcases List.mem_cons.mp hx with rfl | hx'
      · exact hmono2 _ hcanc
      · exact hcanc2 x hx'

/-- C6: `/cancel-subscription` answers 400 on a missing `customerId`, 404 for
a customer with zero active subscriptions, and for a customer owning `N ≤ 10`
active subscriptions (all of whose cancellations the processor accepts) a
success response whose `canceledSubscriptions` has length exactly `N`, with
one processor cancel call per listed subscription and every listed
subscription canceled. -/
theorem c6_cancel_subscription_cases (st : Stripe) :
    (∀ v : Option JVal, fieldTruthy v = false →
      cancelSubscription ⟨v⟩ st
        = (⟨400, .errorBody "Customer ID is required"⟩, st, [])) ∧
    (∀ cid : String, cid ≠ "" → activeOf cid st = [] →
      cancelSubscription ⟨some (.jstr cid)⟩ st
        = (⟨404, .errorBody "No active subscription found"⟩, st,
           [.subscriptionsList cid])) ∧
    (∀ (cid : String) (N : Nat), cid ≠ "" →
      (activeOf cid st).length = N → 1 ≤ N → N ≤ 10 →
      (∀ s ∈ activeOf cid st, st.cancelFails.contains s.id = false) →
      ∃ st', cancelSubscription ⟨some (.jstr cid)⟩ st
          = (⟨200, .cancelResp ((activeOf cid st).map fun s => s.id)⟩, st',
             .subscriptionsList cid
               :: ((activeOf cid st).map fun s => Call.subscriptionsCancel s.id)) ∧
        ((activeOf cid st).map fun s => s.id).length = N ∧
        (∀ s ∈ activeOf cid st, allCanceled st' s.id)) := by
  refine ⟨?_, ?_, ?_⟩
  · intro v hv
    simp [cancelSubscription, hv]
  · intro cid hcid hact
    have ht : fieldTruthy (some (.jstr cid)) = true := by
      simp [fieldTruthy, JVal.truthy, hcid]
    have hlist : subscriptionsList cid "active" 10 st = [] := by
      rw [subscriptionsList_active, hact]
      rfl
    simp [cancelSubscription, ht, JVal.asKey, hlist]
  · intro cid N hcid hlen hN1 hN10 hfails
    have htake : subscriptionsList cid "active" 10 st = activeOf cid st := by
      rw [subscriptionsList_active]
      exact List.take_of_length_le (by omega)
    have hsub : ∀ s ∈ activeOf cid st, hasSubId st s.id := by
      intro s hs
      exact ⟨s, List.mem_of_mem_filter hs, rfl⟩
    obtain ⟨st', hceq, hfails', hhas', hmono', hcanc'⟩ :=
      cancelAll_ok (activeOf cid st) st (fun s hs => ⟨hfails s hs, hsub s hs⟩)
    have ht : fieldTruthy (some (.jstr cid)) = true := by
      simp [fieldTruthy, JVal.truthy, hcid]
    have hne : (activeOf cid st).length ≠ 0 := by omega
    refine ⟨st', ?_, by simp [hlen], hcanc'⟩
    simp [cancelSubscription, ht, JVal.asKey, htake, hne, hceq]

/-- Witness state for C6: a customer with two active subscriptions. -/
def c6WitnessState : Stripe :=
  { Stripe.empty with subscriptions :=
      [⟨"sub_a", "cus_9", "active", ⟨none⟩⟩, ⟨"sub_b", "cus_9", "active", ⟨none⟩⟩] }

/-- Witness for C6: cancelling for a customer with two active subscriptions
succeeds with exactly two canceled ids. -/
theorem c6_cancel_subscription_cases_witness :
    ∃ st', cancelSubscription ⟨some (.jstr "cus_9")⟩ c6WitnessState
        = (⟨200, .cancelResp ((activeOf "cus_9" c6WitnessState).map fun s => s.id)⟩, st',
           .subscriptionsList "cus_9"
             :: ((activeOf "cus_9" c6WitnessState).map fun s => Call.subscriptionsCancel s.id)) ∧
      ((activeOf "cus_9" c6WitnessState).map fun s => s.id).length = 2 ∧
      (∀ s ∈ activeOf "cus_9" c6WitnessState, allCanceled st' s.id) :=
  (c6_cancel_subscription_cases c6WitnessState).2.2 "cus_9" 2
    (by decide) (by decide) (by decide) (by decide) (by decide)

/-- C7: when the processor rejects the cancellation of the `k`-th of the
listed active subscriptions, the earlier ones remain canceled, exactly the
first `k` cancels were attempted (none after the failure), and the response is
a 500 error rather than a partial-success body. -/
theorem c7_cancel_failure_at_least_once (st : Stripe) (cid : String)
    (hcid : cid ≠ "")
    (pre : List Subscription) (sk : Subscription) (post : List Subscription)
    (hlist : subscriptionsList cid "active" 10 st = pre ++ sk :: post)
    (hpre : ∀ s ∈ pre, st.cancelFails.contains s.id = false)
    (hk : st.cancelFails.contains sk.id = true) :
    ∃ st', cancelSubscription ⟨some (.jstr cid)⟩ st
        = (⟨500, .errorBody "subscription cancel failed"⟩, st',
           .subscriptionsList cid
             :: ((pre.map fun s => Call.subscriptionsCancel s.id)
                  ++ [.subscriptionsCancel sk.id])) ∧
      (∀ s ∈ pre, allCanceled st' s.id) := by
  have hsub : ∀ s ∈ pre, hasSubId st s.id := by
    intro s hs
    have hmem : s ∈ pre ++ sk :: post := List.mem_append_left _ hs
    rw [← hlist, subscriptionsList_active] at hmem
    exact ⟨s, List.mem_of_mem_filter (List.mem_of_mem_take hmem), rfl⟩
  obtain ⟨st', hceq, hfails', hmono', hcanc'⟩ :=
    cancelAll_fail pre sk post st (fun s hs => ⟨hpre s hs, hsub s hs⟩) hk
  have ht : fieldTruthy (some (.jstr cid)) = true := by
    simp [fieldTruthy, JVal.truthy, hcid]
  have hne : (pre ++ sk :: post).length ≠ 0 := by simp
  refine ⟨st', ?_, hcanc'⟩
  simp [cancelSubscription, ht, JVal.asKey, hlist, hne, hceq]

/-- Witness state for C7: two active subscriptions, the second of which the
processor refuses to cancel. -/
def c7WitnessState : Stripe :=
  { Stripe.empty with
    subscriptions :=
      [⟨"sub_a", "cus_9", "active", ⟨none⟩⟩, ⟨"sub_b", "cus_9", "active", ⟨none⟩⟩],
    cancelFails := ["sub_b"] }

/-- Witness for C7: the failure on the second of two listed subscriptions
leaves the first canceled, attempts nothing further, and answers 500. -/
theorem c7_cancel_failure_at_least_once_witness :
    ∃ st', cancelSubscription ⟨some (.jstr "cus_9")⟩ c7WitnessState
        = (⟨500, .errorBody "subscription cancel failed"⟩, st',
           [.subscriptionsList "cus_9", .subscriptionsCancel "sub_a",
            .subscriptionsCancel "sub_b"]) ∧
      (∀ s ∈ [(⟨"sub_a", "cus_9", "active", ⟨none⟩⟩ : Subscription)],
        allCanceled st' s.id) :=
  c7_cancel_failure_at_least_once c7WitnessState "cus_9" (by decide)
    [⟨"sub_a", "cus_9", "active", ⟨none⟩⟩] ⟨"sub_b", "cus_9", "active", ⟨none⟩⟩ []
    (by decide) (by decide) (by decide)

/-- Witness for C8 at `"SAVE10"` and `"save10"`. -/
theorem c8_promo_lookup_case_insensitive_witness :
    validatePromo ⟨some (.jstr "SAVE10")⟩
        { Stripe.empty with promotionCodes :=
            [⟨"promo_1", "SAVE10", true, ⟨some 10, none, "once", none⟩⟩] }
      = validatePromo ⟨some (.jstr "save10")⟩
          { Stripe.empty with promotionCodes :=
              [⟨"promo_1", "SAVE10", true, ⟨some 10, none, "once", none⟩⟩] } :=
  (c8_promo_lookup_case_insensitive
    { Stripe.empty with promotionCodes :=
        [⟨"promo_1", "SAVE10", true, ⟨some 10, none, "once", none⟩⟩] }
    "SAVE10" "save10" (by decide) (by decide) (by decide)).1

end Eventer
